import Mathlib

/-
  Verification of the IKEv2 message demultiplexer of
  src/programs/pluto/ikev2.c (libreswan).

  The development shallowly embeds the functions the claims refer to:
  Message-ID tracking (v2_msgid_update_counters, processed_retransmit,
  the response Message-ID window check), payload decoding and
  verification (ikev2_decode_payloads, ikev2_verify_payloads),
  fragment reassembly (ikev2_check_fragment, ikev2_collect_fragment),
  the no-matching-transition rejection path, IKE SA rekey emancipation
  (ikev2_child_emancipate / success_v2_state_transition) and the
  IKE_SA_INIT response dispatch branch of ikev2_process_packet.

  Machine integers: msgid_t is uint32_t in the source; it is embedded
  as Nat with values below 2^32 and explicit wraparound where the
  source increments.  lset_t (a 64-bit bitset) is embedded as Nat used
  as a bitmask, LELEM n = 2^n.
-/

namespace IKEv2

/-! ## Constants from the source's headers

The numeric values below come from the repository's headers
(ietf_constants.h, defs.h, demux.h), which are not under src/; the
values are fixed by RFC 7296/7383 and by the spec (MAX_IKE_FRAGMENTS
"e.g., 32", invalid message id is the all-ones 32-bit value). -/

/-- Modulus of the 32-bit msgid_t arithmetic. -/
def MSGID_MODULUS : Nat := 4294967296

/-- Modelled from the spec: v2_INVALID_MSGID, the reserved "invalid"
marker of a Message-ID counter (all-ones uint32_t). -/
def v2_INVALID_MSGID : Nat := 4294967295

/-- Modelled from the spec: v2_FIRST_MSGID, the first Message ID (0). -/
def v2_FIRST_MSGID : Nat := 0

/-- Modelled from the spec: MAX_IKE_FRAGMENTS (e.g., 32). -/
def MAX_IKE_FRAGMENTS : Nat := 32

/-- lset_t element: LELEM(n) = ((lset_t)1 << n). -/
def LELEM (n : Nat) : Nat := 2 ^ n

/-- The empty lset_t. -/
def LEMPTY : Nat := 0

/-- Number of bits of an lset_t; payload types must be below it. -/
def LELEM_ROOF : Nat := 64

/-- IKEv2 payload type numbers (RFC 7296 and RFC 7383). -/
def v2NONE : Nat := 0
def v2SA : Nat := 33
def v2KE : Nat := 34
def v2IDi : Nat := 35
def v2IDr : Nat := 36
def v2CERT : Nat := 37
def v2CERTREQ : Nat := 38
def v2AUTH : Nat := 39
def v2Ni : Nat := 40
def v2N : Nat := 41
def v2D : Nat := 42
def v2V : Nat := 43
def v2TSi : Nat := 44
def v2TSr : Nat := 45
def v2SK : Nat := 46
def v2CP : Nat := 47
def v2SKF : Nat := 53

/-- IKEv2 notification codes used by the demultiplexer (RFC 7296). -/
def v2N_NOTHING_WRONG : Nat := 0
def v2N_UNSUPPORTED_CRITICAL_PAYLOAD : Nat := 1
def v2N_INVALID_IKE_SPI : Nat := 4
def v2N_INVALID_SYNTAX : Nat := 7

/-- everywhere_payloads = P(N) | P(V) (ikev2.c line 254). -/
def everywhere_payloads : Nat := LELEM v2N ||| LELEM v2V

/-- repeatable_payloads = P(N) | P(D) | P(CP) | P(V) | P(CERT) | P(CERTREQ)
(ikev2.c line 255). -/
def repeatable_payloads : Nat :=
  LELEM v2N ||| LELEM v2D ||| LELEM v2CP ||| LELEM v2V |||
  LELEM v2CERT ||| LELEM v2CERTREQ

/-- The IKEv2 member of enum state_kind that the embedded functions
inspect (constants.h). -/
inductive state_kind where
  | STATE_PARENT_I0
  | STATE_PARENT_I1
  | STATE_PARENT_I2
  | STATE_PARENT_I3
  | STATE_PARENT_R0
  | STATE_PARENT_R1
  | STATE_PARENT_R2
  | STATE_V2_CREATE_I0
  | STATE_V2_CREATE_I
  | STATE_V2_CREATE_R
  | STATE_V2_REKEY_IKE_I0
  | STATE_V2_REKEY_IKE_I
  | STATE_V2_REKEY_IKE_R
  | STATE_V2_REKEY_CHILD_I0
  | STATE_V2_REKEY_CHILD_I
  | STATE_V2_REKEY_CHILD_R
  | STATE_V2_IPSEC_I
  | STATE_V2_IPSEC_R
  | STATE_IKESA_DEL
  | STATE_CHILDSA_DEL
deriving DecidableEq, Repr

/-! ## Message-ID tracker (ikev2.c lines 2602-2688) -/

/-- The four Message-ID counters of an IKE SA (struct state fields
st_msgid_lastack, st_msgid_nextuse, st_msgid_lastrecv,
st_msgid_lastreplied). -/
structure Counters where
  lastack : Nat
  nextuse : Nat
  lastrecv : Nat
  lastreplied : Nat
deriving DecidableEq, Repr

/-- The part of (st, md) that v2_msgid_update_counters reads:
whether the message is a response (MSG_R set), its Message ID, and
st->st_state. -/
structure UpdIn where
  response : Bool
  msgid : Nat
  st_state : state_kind
deriving DecidableEq, Repr

/-- v2_msgid_update_counters (ikev2.c lines 2602-2688), acting on the
IKE SA's counters.  The schedule_next_send window code does not change
any counter and is omitted. -/
def v2_msgid_update_counters (c : Counters) (i : UpdIn) : Counters :=
  let c1 :=
    if i.response = false ∧
       (i.st_state = state_kind.STATE_PARENT_I1 ∨
        i.st_state = state_kind.STATE_V2_REKEY_IKE_I ∨
        i.st_state = state_kind.STATE_V2_REKEY_CHILD_I ∨
        i.st_state = state_kind.STATE_V2_CREATE_I) then
      { c with nextuse := (c.nextuse + 1) % MSGID_MODULUS }
    else if i.st_state = state_kind.STATE_PARENT_I2 then
      { c with nextuse := (c.nextuse + 1) % MSGID_MODULUS }
    else c
  if i.response then
    if i.msgid = v2_FIRST_MSGID ∧ c1.lastack = v2_INVALID_MSGID then
      { c1 with lastack := i.msgid }
    else if c1.lastack < i.msgid then
      { c1 with lastack := i.msgid }
    else c1
  else
    let c2 :=
      if c1.lastrecv < i.msgid then { c1 with lastrecv := i.msgid } else c1
    if i.msgid = v2_FIRST_MSGID ∧ c2.lastrecv = v2_INVALID_MSGID then
      { c2 with lastrecv := v2_FIRST_MSGID }
    else c2

/-- A counter is valid when it is not the reserved invalid marker. -/
def msgid_valid (m : Nat) : Prop := m ≠ v2_INVALID_MSGID

instance (m : Nat) : Decidable (msgid_valid m) := by
  unfold msgid_valid; infer_instance

/-- Claim C2.  Under the reachable-state side conditions (all counters
in 32-bit range, nextuse valid, the incoming Message ID in the valid
range, a response Message ID below nextuse as the dispatcher
guarantees, and the two invariants holding before the update),
v2_msgid_update_counters preserves lastack ≤ nextuse - 1 and
lastreplied ≤ lastrecv (whenever the counters involved are valid) and
never decreases any of the four counters (among valid values). -/
theorem v2_msgid_update_counters_invariants
    (c : Counters) (i : UpdIn)
    (hla : c.lastack < MSGID_MODULUS)
    (hnu : c.nextuse < v2_INVALID_MSGID)
    (hlr : c.lastrecv < MSGID_MODULUS)
    (hmsg : i.msgid < v2_INVALID_MSGID)
    (hresp : i.response = true → i.msgid < c.nextuse)
    (hinv1 : msgid_valid c.lastack → c.lastack < c.nextuse)
    (hinv2 : msgid_valid c.lastreplied →
      c.lastreplied ≤ c.lastrecv ∧ msgid_valid c.lastrecv) :
    (msgid_valid (v2_msgid_update_counters c i).lastack →
      (v2_msgid_update_counters c i).lastack <
        (v2_msgid_update_counters c i).nextuse) ∧
    (msgid_valid (v2_msgid_update_counters c i).lastreplied →
      (v2_msgid_update_counters c i).lastreplied ≤
        (v2_msgid_update_counters c i).lastrecv ∧
      msgid_valid (v2_msgid_update_counters c i).lastrecv) ∧
    (msgid_valid c.lastack →
      c.lastack ≤ (v2_msgid_update_counters c i).lastack) ∧
    c.nextuse ≤ (v2_msgid_update_counters c i).nextuse ∧
    (msgid_valid c.lastrecv →
      c.lastrecv ≤ (v2_msgid_update_counters c i).lastrecv) ∧
    c.lastreplied ≤ (v2_msgid_update_counters c i).lastreplied := by
  simp only [v2_msgid_update_counters, msgid_valid, v2_INVALID_MSGID,
    MSGID_MODULUS, v2_FIRST_MSGID] at *
  split_ifs <;>
    simp_all <;>
    omega

/-- Witness for C2 at a concrete input: counters (lastack 2, nextuse 4,
lastrecv 1, lastreplied 1) receiving response msgid 3 in
STATE_PARENT_I3. -/
theorem v2_msgid_update_counters_invariants_witness :
    (v2_msgid_update_counters
        ⟨2, 4, 1, 1⟩ ⟨true, 3, state_kind.STATE_PARENT_I3⟩).lastack <
      (v2_msgid_update_counters
        ⟨2, 4, 1, 1⟩ ⟨true, 3, state_kind.STATE_PARENT_I3⟩).nextuse :=
  (v2_msgid_update_counters_invariants
      ⟨2, 4, 1, 1⟩ ⟨true, 3, state_kind.STATE_PARENT_I3⟩
      (by decide) (by decide) (by decide) (by decide)
      (fun _ => by decide) (fun _ => by decide)
      (fun _ => by decide)).1
    (by decide)

/-! ## Response Message-ID window check (ikev2.c lines 1660-1700)

When a response finds no CHILD SA by Message ID and falls back to the
IKE SA, ikev2_process_packet applies two drop checks before
dispatching to the state machine. -/

inductive resp_check_result where
  | dropOld
  | dropUnsolicited
  | dispatch
deriving DecidableEq, Repr

/-- The Message-ID checks of the MESSAGE_RESPONSE fallback path of
ikev2_process_packet (lines 1678-1700): drop as an old retransmitted
response when lastack is valid and lastack > m; drop as unasked when
nextuse is valid and m >= nextuse; otherwise continue to
state-machine dispatch. -/
def ikev2_response_msgid_check (lastack nextuse m : Nat) : resp_check_result :=
  if lastack ≠ v2_INVALID_MSGID ∧ m < lastack then
    resp_check_result.dropOld
  else if nextuse ≠ v2_INVALID_MSGID ∧ nextuse ≤ m then
    resp_check_result.dropUnsolicited
  else
    resp_check_result.dispatch

/-- Counterexample to claim C3 as stated.  With lastack = 5 (valid),
nextuse = 7 and m = 5 we have m ≤ lastack, so the claim requires the
message to be dropped as an old response; the code compares with
strict lastack > m and dispatches the m = lastack message instead. -/
theorem ikev2_response_msgid_check_eq_not_dropped :
    5 ≠ v2_INVALID_MSGID ∧ (5 : Nat) ≤ 5 ∧
    ikev2_response_msgid_check 5 7 5 = resp_check_result.dispatch := by
  decide

/-- Claim C3 as amended: with both counters valid, a response with
Message ID m < lastack is dropped as old, one with m ≥ nextuse is
dropped as unsolicited, and exactly the responses with
lastack ≤ m < nextuse proceed to state-machine dispatch. -/
theorem ikev2_response_msgid_check_characterization
    (lastack nextuse m : Nat)
    (hla : msgid_valid lastack) (hnu : msgid_valid nextuse) :
    (ikev2_response_msgid_check lastack nextuse m = resp_check_result.dropOld
      ↔ m < lastack) ∧
    (ikev2_response_msgid_check lastack nextuse m =
        resp_check_result.dropUnsolicited
      ↔ lastack ≤ m ∧ nextuse ≤ m) ∧
    (ikev2_response_msgid_check lastack nextuse m = resp_check_result.dispatch
      ↔ lastack ≤ m ∧ m < nextuse) := by
  simp only [ikev2_response_msgid_check, msgid_valid] at *
  split_ifs <;> simp_all

/-- Witness for the amended C3 at lastack = 5, nextuse = 7, m = 6. -/
theorem ikev2_response_msgid_check_characterization_witness :
    ikev2_response_msgid_check 5 7 6 = resp_check_result.dispatch :=
  ((ikev2_response_msgid_check_characterization 5 7 6
      (by decide) (by decide)).2.2).mpr (by decide)

/-! ## Request retransmission handling (ikev2.c lines 1266-1361 and
1798-1802)

processed_retransmit decides, for an incoming request, whether the
message is consumed here (drop or retransmit of the recorded
response) or passed on to ikev2_process_state_packet, which selects a
transition and invokes its handler. -/

/-- The state fields processed_retransmit reads. -/
structure RtState where
  lastrecv : Nat
  lastreplied : Nat
  /-- st_tpacket.len != 0 or st_v2_tfrags != NULL: a recorded outgoing
  packet exists. -/
  tpacket_present : Bool
  /-- v2_child_sa_responder_with_msgid(ike_sa(st), lastrecv) != NULL:
  a CHILD SA responder is working on Message ID lastrecv. -/
  child_responder_exists : Bool
deriving DecidableEq, Repr

/-- The message fields processed_retransmit reads beyond the Message
ID: whether the first payload is SKF, whether that SKF header parses,
and its fragment number. -/
structure RtMsg where
  np_is_SKF : Bool
  skf_parse_ok : Bool
  skf_number : Nat
deriving DecidableEq, Repr

/-- Outcome of processed_retransmit, one constructor per return site
(lines 1279-1360). -/
inductive rt_outcome where
  /-- lastrecv valid and lastrecv > m: old retransmit, drop (true). -/
  | tooOld
  /-- lastrecv ≠ m: presumably not a retransmit (false). -/
  | notRetransmit
  /-- no stored packet to retransmit: drop (true). -/
  | noStoredPacket
  /-- lastreplied ≠ lastrecv and a child responder is working on the
  Message ID: drop (true). -/
  | childWorking
  /-- lastreplied ≠ lastrecv but no child responder found: process the
  retransmitted message (false). -/
  | processRetransmittedMessage
  /-- SKF header failed to parse: drop (true). -/
  | skfMalformed
  /-- fragment number 1: retransmit recorded response (true). -/
  | skfRetransmit
  /-- fragment number ≠ 1: ignore (true). -/
  | skfIgnore
  /-- retransmit the recorded response (true). -/
  | retransmitResponse
deriving DecidableEq, Repr

/-- processed_retransmit (ikev2.c lines 1266-1361). -/
def processed_retransmit (st : RtState) (m : Nat) (msg : RtMsg) : rt_outcome :=
  if st.lastrecv ≠ v2_INVALID_MSGID ∧ m < st.lastrecv then
    rt_outcome.tooOld
  else if st.lastrecv ≠ m then
    rt_outcome.notRetransmit
  else if st.tpacket_present = false then
    rt_outcome.noStoredPacket
  else if st.lastreplied ≠ st.lastrecv then
    if st.child_responder_exists then rt_outcome.childWorking
    else rt_outcome.processRetransmittedMessage
  else if msg.np_is_SKF then
    if msg.skf_parse_ok = false then rt_outcome.skfMalformed
    else if msg.skf_number = 1 then rt_outcome.skfRetransmit
    else rt_outcome.skfIgnore
  else
    rt_outcome.retransmitResponse

/-- The boolean processed_retransmit returns: true means the message
was consumed (dropped or answered by a retransmit) and
ikev2_process_packet returns without calling
ikev2_process_state_packet (lines 1798-1802); false means processing
continues towards transition selection and the handler. -/
def rt_handled : rt_outcome → Bool
  | rt_outcome.notRetransmit => false
  | rt_outcome.processRetransmittedMessage => false
  | _ => true

/-- Counterexample to claim C1 as stated.  State: lastrecv = 5
(valid), lastreplied = 3 (< lastrecv, so no cached response for
Message ID 5 yet), a recorded packet from the earlier exchange, and no
CHILD SA responder working on Message ID 5.  The incoming request has
m = 5 = lastrecv.  The claim requires a silent drop, but
processed_retransmit returns false and the dispatcher continues to
ikev2_process_state_packet, which may invoke a transition handler. -/
theorem processed_retransmit_not_handled_at_lastrecv :
    (5 : Nat) ≤ 5 ∧ 5 ≠ v2_INVALID_MSGID ∧ (3 : Nat) < 5 ∧
    rt_handled (processed_retransmit ⟨5, 3, true, false⟩ 5
      ⟨false, true, 0⟩) = false := by
  decide

/-- Claim C1 as amended: for a request with Message ID m ≤ lastrecv
(lastrecv valid), the message escapes to state-machine dispatch (so
that a handler may run) exactly when m = lastrecv, a recorded response
packet exists, lastreplied ≠ lastrecv, and no CHILD SA responder is
working on that Message ID; in every other case processed_retransmit
consumes the message (drop or retransmit of the recorded bytes). -/
theorem processed_retransmit_handled_iff
    (st : RtState) (m : Nat) (msg : RtMsg)
    (hvalid : msgid_valid st.lastrecv) (hle : m ≤ st.lastrecv) :
    rt_handled (processed_retransmit st m msg) = false ↔
      (m = st.lastrecv ∧ st.tpacket_present = true ∧
       st.lastreplied ≠ st.lastrecv ∧ st.child_responder_exists = false) := by
  simp only [processed_retransmit, msgid_valid] at *
  split_ifs <;> simp_all [rt_handled] <;> omega

/-- Witness for the amended C1: with lastrecv = 5 = m, lastreplied =
3, a recorded packet and no working child, the message is passed on. -/
theorem processed_retransmit_handled_iff_witness :
    rt_handled (processed_retransmit ⟨5, 3, true, false⟩ 5
      ⟨false, true, 0⟩) = false :=
  (processed_retransmit_handled_iff ⟨5, 3, true, false⟩ 5 ⟨false, true, 0⟩
      (by decide) (by decide)).mpr (by decide)

/-! ## Payload verifier (ikev2.c lines 937-981) -/

/-- struct payload_summary: the bitset of payload types present, the
bitset of types seen more than once, the notification outcome of the
decode and its data bytes. -/
structure payload_summary where
  present : Nat
  repeated : Nat
  n : Nat
  data : List Nat
deriving DecidableEq, Repr

/-- struct ikev2_expected_payloads: required set, optional set, and an
optional specific notification (v2N_NOTHING_WRONG when none). -/
structure ikev2_expected_payloads where
  required : Nat
  optional : Nat
  notification : Nat
deriving DecidableEq, Repr

/-- struct ikev2_payload_errors. -/
structure ikev2_payload_errors where
  bad : Bool
  excessive : Nat
  missing : Nat
  unexpected : Nat
  notification : Nat
deriving DecidableEq, Repr

/-- The SKF-onto-SK conversion opening ikev2_verify_payloads (lines
941-949): when SKF is present on its own, clear SKF and set SK. -/
def skf_aliased_seen (present : Nat) : Nat :=
  if present &&& (LELEM v2SKF ||| LELEM v2SK) = LELEM v2SKF then
    Nat.ldiff present (LELEM v2SKF) ||| LELEM v2SK
  else present

/-- ikev2_verify_payloads (ikev2.c lines 937-981).  The Notify chain
of the message digest is passed as the list of its isan_type values in
message order. -/
def ikev2_verify_payloads (notify_chain : List Nat)
    (summary : payload_summary) (payloads : ikev2_expected_payloads) :
    ikev2_payload_errors :=
  let seen := skf_aliased_seen summary.present
  let req_payloads := payloads.required
  let opt_payloads := payloads.optional
  let errors0 : ikev2_payload_errors :=
    { bad := false,
      excessive := Nat.ldiff summary.repeated repeatable_payloads,
      missing := Nat.ldiff req_payloads seen,
      unexpected := Nat.ldiff (Nat.ldiff (Nat.ldiff seen req_payloads)
        opt_payloads) everywhere_payloads,
      notification := v2N_NOTHING_WRONG }
  let errors1 :=
    if (errors0.excessive ||| errors0.missing ||| errors0.unexpected) ≠ LEMPTY
    then { errors0 with bad := true }
    else errors0
  if payloads.notification ≠ v2N_NOTHING_WRONG then
    if notify_chain.contains payloads.notification then errors1
    else { errors1 with bad := true, notification := payloads.notification }
  else errors1

/-- The claim's wording of the seen set, per payload type: the present
set with SKF replaced by SK when SKF is present and SK absent.  Used
only in statements, to be compared with the source's computation. -/
def claim_seen (present : Nat) (i : Nat) : Bool :=
  if i = v2SK then present.testBit v2SK || present.testBit v2SKF
  else if i = v2SKF then present.testBit v2SKF && present.testBit v2SK
  else present.testBit i

/-- Bit i of LELEM n is set exactly when i = n. -/
lemma testBit_LELEM (n i : Nat) : (LELEM n).testBit i = decide (n = i) := by
  simp [LELEM, Nat.testBit_two_pow]

/-- The source's SKF-alias guard holds exactly when SKF is present and
SK absent. -/
lemma skf_alias_cond_iff (present : Nat) :
    present &&& (LELEM v2SKF ||| LELEM v2SK) = LELEM v2SKF ↔
      (present.testBit v2SKF = true ∧ present.testBit v2SK = false) := by
  constructor
  · intro h
    have h53 := congrArg (fun x => Nat.testBit x v2SKF) h
    have h46 := congrArg (fun x => Nat.testBit x v2SK) h
    simp only [Nat.testBit_and, Nat.testBit_or, testBit_LELEM] at h53 h46
    simp only [v2SKF, v2SK] at h53 h46 ⊢
    simp at h53 h46
    exact ⟨h53, h46⟩
  · rintro ⟨h1, h2⟩
    apply Nat.eq_of_testBit_eq
    intro j
    simp only [Nat.testBit_and, Nat.testBit_or, testBit_LELEM]
    rcases eq_or_ne j v2SKF with rfl | hj53
    · simp [h1]
    · rcases eq_or_ne j v2SK with rfl | hj46
      · simp only [v2SKF, v2SK] at *
        simp [h2]
      · simp [Ne.symm hj53, Ne.symm hj46]

/-- Per-bit description of the SKF-aliased seen set, matching the
claim's per-type description. -/
lemma skf_aliased_seen_testBit (present i : Nat) :
    (skf_aliased_seen present).testBit i = claim_seen present i := by
  unfold skf_aliased_seen claim_seen
  by_cases hc : present &&& (LELEM v2SKF ||| LELEM v2SK) = LELEM v2SKF
  · obtain ⟨h1, h2⟩ := (skf_alias_cond_iff present).mp hc
    rw [if_pos hc]
    simp only [Nat.testBit_or, Nat.testBit_ldiff, testBit_LELEM]
    rcases eq_or_ne i v2SK with rfl | hi46
    · rw [if_pos rfl]
      simp only [v2SK, v2SKF] at h1 h2 ⊢
      simp [h1, h2]
    · rw [if_neg hi46]
      rcases eq_or_ne i v2SKF with rfl | hi53
      · rw [if_pos rfl]
        simp only [v2SK, v2SKF] at h1 h2 hi46 ⊢
        simp [h1, h2]
      · rw [if_neg hi53]
        simp [Ne.symm hi53, Ne.symm hi46]
  · have hd := (not_iff_not.mpr (skf_alias_cond_iff present)).mp hc
    rw [if_neg hc]
    rcases eq_or_ne i v2SK with rfl | hi46
    · rw [if_pos rfl]
      rcases hb : present.testBit v2SKF with _ | _
      · simp [hb]
      · have h46 : present.testBit v2SK = true := by
          by_contra hx
          exact hd ⟨hb, by simpa using hx⟩
        simp [h46]
    · rw [if_neg hi46]
      rcases eq_or_ne i v2SKF with rfl | hi53
      · rw [if_pos rfl]
        rcases hb : present.testBit v2SKF with _ | _
        · simp [hb]
        · have h46 : present.testBit v2SK = true := by
            by_contra hx
            exact hd ⟨hb, by simpa using hx⟩
          simp [h46, hb]
      · rw [if_neg hi53]

/-- An lset_t union is empty exactly when both halves are. -/
lemma lor_eq_zero_iff (a b : Nat) : a ||| b = 0 ↔ a = 0 ∧ b = 0 := by
  constructor
  · intro h
    constructor <;>
      · apply Nat.eq_of_testBit_eq
        intro i
        have hi := congrArg (fun x => Nat.testBit x i) h
        simp only [Nat.testBit_or, Nat.zero_testBit,
          Bool.or_eq_false_iff] at hi
        simp [hi.1, hi.2]
  · rintro ⟨rfl, rfl⟩
    simp

/-- Claim C4.  ikev2_verify_payloads returns exactly the three
difference sets over the SKF-aliased seen set (described per payload
type), with unexpected additionally excluding the
everywhere-permitted Notify and Vendor types and excessive excluding
the repeatable whitelist; and the result is flagged bad exactly when
one of the three sets is non-empty or an expected notification code is
absent from the Notify chain. -/
theorem ikev2_verify_payloads_correct (notify_chain : List Nat)
    (summary : payload_summary) (payloads : ikev2_expected_payloads) :
    (∀ i, (ikev2_verify_payloads notify_chain summary payloads).missing.testBit i
        = (payloads.required.testBit i && !(claim_seen summary.present i))) ∧
    (∀ i, (ikev2_verify_payloads notify_chain summary payloads).unexpected.testBit i
        = (claim_seen summary.present i && !(payloads.required.testBit i) &&
           !(payloads.optional.testBit i) &&
           !(decide (i = v2N) || decide (i = v2V)))) ∧
    (∀ i, (ikev2_verify_payloads notify_chain summary payloads).excessive.testBit i
        = (summary.repeated.testBit i && !(repeatable_payloads.testBit i))) ∧
    ((ikev2_verify_payloads notify_chain summary payloads).bad = true ↔
      ((ikev2_verify_payloads notify_chain summary payloads).missing ≠ LEMPTY ∨
       (ikev2_verify_payloads notify_chain summary payloads).unexpected ≠ LEMPTY ∨
       (ikev2_verify_payloads notify_chain summary payloads).excessive ≠ LEMPTY ∨
       (payloads.notification ≠ v2N_NOTHING_WRONG ∧
        notify_chain.contains payloads.notification = false))) := by
  have heverywhere : ∀ i, everywhere_payloads.testBit i =
      (decide (i = v2N) || decide (i = v2V)) := by
    intro i
    simp only [everywhere_payloads, LELEM, Nat.testBit_or,
      Nat.testBit_two_pow]
    simp [eq_comm]
  refine ⟨?_, ?_, ?_, ?_⟩
  · intro i
    simp only [ikev2_verify_payloads]
    split_ifs <;>
      simp [Nat.testBit_ldiff, skf_aliased_seen_testBit]
  · intro i
    simp only [ikev2_verify_payloads]
    split_ifs <;>
      simp [Nat.testBit_ldiff, skf_aliased_seen_testBit, heverywhere i,
        Bool.and_assoc]
  · intro i
    simp only [ikev2_verify_payloads]
    split_ifs <;>
      simp [Nat.testBit_ldiff]
  · simp only [ikev2_verify_payloads, LEMPTY]
    split_ifs with h1 h2 h3 <;>
      simp_all [lor_eq_zero_iff] <;>
      tauto

/-! ## Rejection of messages with no matching transition
(ikev2.c lines 2108-2144 and 3153-3191) -/

/-- The notification-sending decision of the STF_FAIL branch of
complete_v2_state_transition (lines 3153-3191): only the responder
to the exchange (MSG_R clear on the incoming message) sends a Notify
response, and only for a real notification code.  Returns the code
sent, or none. -/
def complete_v2_fail_sends (msg_r : Bool) (n : Nat) : Option Nat :=
  if n ≠ v2N_NOTHING_WRONG ∧ msg_r = false then some n else none

/-- The no-useful-microcode rejection at the end of the transition
scan in ikev2_process_state_packet (lines 2111-2143): saved clear or
encrypted payload errors lead to complete_v2_state_transition with
STF_FAIL + v2N_INVALID_SYNTAX; otherwise a request (MSG_R clear) is
answered with v2N_INVALID_IKE_SPI and a response gets nothing.
Returns the notification sent in reply, none when the message is
dropped without an answer. -/
def no_matching_microcode_response (message_bad encrypted_bad msg_r : Bool) :
    Option Nat :=
  if message_bad then complete_v2_fail_sends msg_r v2N_INVALID_SYNTAX
  else if encrypted_bad then complete_v2_fail_sends msg_r v2N_INVALID_SYNTAX
  else if msg_r = false then some v2N_INVALID_IKE_SPI
  else none

/-- Claim C5.  When the transition scan finds no row: a request whose
failure came from clear or encrypted payload-verification errors is
answered with INVALID_SYNTAX; any other request is answered with
INVALID_IKE_SPI; a response (MSG_R set) is dropped with no reply. -/
theorem no_matching_microcode_response_correct
    (message_bad encrypted_bad msg_r : Bool) :
    ((message_bad = true ∨ encrypted_bad = true) → msg_r = false →
      no_matching_microcode_response message_bad encrypted_bad msg_r =
        some v2N_INVALID_SYNTAX) ∧
    (message_bad = false → encrypted_bad = false → msg_r = false →
      no_matching_microcode_response message_bad encrypted_bad msg_r =
        some v2N_INVALID_IKE_SPI) ∧
    (msg_r = true →
      no_matching_microcode_response message_bad encrypted_bad msg_r =
        none) := by
  revert message_bad encrypted_bad msg_r
  decide

/-- Witness for C5 at a concrete input: a request rejected with clear
payload errors is answered with INVALID_SYNTAX. -/
theorem no_matching_microcode_response_correct_witness :
    no_matching_microcode_response true false false =
      some v2N_INVALID_SYNTAX :=
  (no_matching_microcode_response_correct true false false).1
    (Or.inl rfl) rfl

/-! ## Fragment reassembly (ikev2.c lines 1051-1167) -/

/-- The fields of the SKF payload header that the reassembler reads
(struct ikev2_skf): fragment number, total, and the next-payload
field. -/
structure Skf where
  number : Nat
  total : Nat
  np : Nat
deriving DecidableEq, Repr

/-- struct v2_ike_rfrags: the per-SA reassembly buffer.  The fixed
array of cipher slots is embedded as the list of filled slot numbers
(a slot is filled when its cipher.ptr is non-NULL). -/
structure v2_ike_rfrags where
  total : Nat
  count : Nat
  filled : List Nat
  first_np : Nat
deriving DecidableEq, Repr

/-- The SA state the reassembler reads and writes. -/
structure FragSa where
  /-- st_connection->policy & POLICY_IKE_FRAG_ALLOW. -/
  policy_ike_frag_allow : Bool
  /-- st_seen_fragvid. -/
  seen_fragvid : Bool
  /-- st_seen_fragments. -/
  seen_fragments : Bool
  /-- st_v2_rfrags (NULL is none). -/
  rfrags : Option v2_ike_rfrags
deriving DecidableEq, Repr

/-- release_fragments(st): free the buffer and null the pointer. -/
def release_fragments (st : FragSa) : FragSa := { st with rfrags := none }

/-- Sanity condition of lines 1080-1083: fragment number non-zero and
within total, total within MAX_IKE_FRAGMENTS, and number 1 exactly
when the next-payload field is not NONE. -/
def skf_sane (skf : Skf) : Bool :=
  decide (skf.number ≠ 0) && decide (skf.number ≤ skf.total) &&
  decide (skf.total ≤ MAX_IKE_FRAGMENTS) &&
  (decide (skf.number = 1) != decide (skf.np = v2NONE))

/-- ikev2_check_fragment (ikev2.c lines 1051-1125).  Returns the
boolean result together with the possibly changed SA state
(release_fragments runs when a larger total supersedes the stored
fragments). -/
def ikev2_check_fragment (st : FragSa) (skf : Skf) : Bool × FragSa :=
  if st.policy_ike_frag_allow = false then (false, st)
  else if st.seen_fragvid = false then (false, st)
  else if skf_sane skf = false then (false, st)
  else
    match st.rfrags with
    | none => (true, st)
    | some r =>
      if skf.total ≠ r.total then
        if r.total < skf.total then (true, release_fragments st)
        else (false, st)
      else if skf.number ∈ r.filled then (false, st)
      else (true, st)

/-- ikev2_collect_fragment (ikev2.c lines 1127-1167).  Returns true
exactly when this arrival completes the set, together with the new SA
state. -/
def ikev2_collect_fragment (st : FragSa) (skf : Skf) : Bool × FragSa :=
  let checked := ikev2_check_fragment st skf
  if checked.1 = false then (false, checked.2)
  else
    let st1 : FragSa := { checked.2 with seen_fragments := true }
    let r0 : v2_ike_rfrags :=
      match st1.rfrags with
      | none => { total := skf.total, count := 0, filled := [],
                  first_np := v2NONE }
      | some r => r
    let r1 := { r0 with filled := skf.number :: r0.filled }
    let r2 := if skf.number = 1 then { r1 with first_np := skf.np } else r1
    let r3 : v2_ike_rfrags := { r2 with count := r2.count + 1 }
    (decide (r3.count = r3.total), { st1 with rfrags := some r3 })

/-- Claim C6.  ikev2_check_fragment rejects every fragment whose
number is 0, whose number exceeds its total, whose total exceeds
MAX_IKE_FRAGMENTS, or that violates (number = 1) iff (np ≠ NONE) -
whatever the rest of the SA state. -/
theorem ikev2_check_fragment_rejects_insane
    (st : FragSa) (skf : Skf)
    (h : skf.number = 0 ∨ skf.total < skf.number ∨
      MAX_IKE_FRAGMENTS < skf.total ∨
      ((skf.number = 1) ↔ (skf.np = v2NONE))) :
    (ikev2_check_fragment st skf).1 = false := by
  have hs : skf_sane skf = false := by
    simp only [skf_sane, Bool.and_eq_false_iff, bne]
    rcases h with h | h | h | h
    · simp [h]
    · left; left; right; simpa [Nat.not_le] using h
    · left; right; simpa [Nat.not_le] using h
    · rcases hn : decide (skf.number = 1) with _ | _ <;>
        rcases hp : decide (skf.np = v2NONE) with _ | _ <;>
          simp_all
  simp only [ikev2_check_fragment]
  split_ifs <;> simp_all

/-- Witness for C6: fragment number 0 is rejected. -/
theorem ikev2_check_fragment_rejects_insane_witness :
    (ikev2_check_fragment ⟨true, true, false, none⟩ ⟨0, 3, 33⟩).1 = false :=
  ikev2_check_fragment_rejects_insane ⟨true, true, false, none⟩ ⟨0, 3, 33⟩
    (Or.inl rfl)

/-- Claim C7.  With a reassembly in progress (stored buffer r) and a
policy-allowed, sane incoming fragment: a larger incoming total
discards the stored fragments and restarts collection with the new
total; a smaller incoming total drops the fragment and keeps the
store; a duplicate of a filled slot is dropped; and on every accepted
fragment the collector signals completion exactly when the new
received count equals the stored total. -/
theorem ikev2_collect_fragment_reconciliation
    (st : FragSa) (r : v2_ike_rfrags) (skf : Skf)
    (hpol : st.policy_ike_frag_allow = true)
    (hvid : st.seen_fragvid = true)
    (hsane : skf_sane skf = true)
    (hr : st.rfrags = some r) :
    (r.total < skf.total →
      (ikev2_collect_fragment st skf).2.rfrags =
        some { total := skf.total, count := 1, filled := [skf.number],
               first_np := if skf.number = 1 then skf.np else v2NONE } ∧
      (ikev2_collect_fragment st skf).1 = decide (1 = skf.total)) ∧
    (skf.total < r.total →
      ikev2_collect_fragment st skf = (false, st)) ∧
    (skf.total = r.total → skf.number ∈ r.filled →
      ikev2_collect_fragment st skf = (false, st)) ∧
    (skf.total = r.total → skf.number ∉ r.filled →
      (ikev2_collect_fragment st skf).2.rfrags =
        some { total := r.total, count := r.count + 1,
               filled := skf.number :: r.filled,
               first_np := if skf.number = 1 then skf.np else r.first_np } ∧
      (ikev2_collect_fragment st skf).1 =
        decide (r.count + 1 = r.total)) := by
  refine ⟨?_, ?_, ?_, ?_⟩
  · intro hlt
    have hne : skf.total ≠ r.total := by omega
    simp only [ikev2_collect_fragment, ikev2_check_fragment, hpol, hvid,
      hsane, hr, release_fragments, hne, hlt]
    split_ifs <;> simp_all
  · intro hlt
    have hne : skf.total ≠ r.total := by omega
    have hnlt : ¬ (r.total < skf.total) := by omega
    simp only [ikev2_collect_fragment, ikev2_check_fragment, hpol, hvid,
      hsane, hr, hne, hnlt]
    split_ifs <;> simp_all
  · intro heq hmem
    simp only [ikev2_collect_fragment, ikev2_check_fragment, hpol, hvid,
      hsane, hr, heq]
    split_ifs <;> simp_all
  · intro heq hmem
    simp only [ikev2_collect_fragment, ikev2_check_fragment, hpol, hvid,
      hsane, hr, heq]
    split_ifs <;> simp_all

/-- Witness for C7: stored buffer with total 3 and one fragment,
incoming sane first fragment declaring total 5; the store restarts
with total 5. -/
theorem ikev2_collect_fragment_reconciliation_witness :
    (ikev2_collect_fragment
        ⟨true, true, true, some ⟨3, 1, [2], 0⟩⟩ ⟨1, 5, 33⟩).2.rfrags =
      some ⟨5, 1, [1], 33⟩ :=
  ((ikev2_collect_fragment_reconciliation
      ⟨true, true, true, some ⟨3, 1, [2], 0⟩⟩ ⟨3, 1, [2], 0⟩ ⟨1, 5, 33⟩
      rfl rfl (by decide) rfl).1 (by decide)).1

/-! ## Payload decoder (ikev2.c lines 765-935)

The byte stream is embedded as the list of its successive payloads as
in_struct would consume them: each element carries whether its header
parses (malformed payloads make in_struct fail), its critical bit and
its generic next-payload field.  Whether v2_payload_desc knows a
payload type is a parameter of the walk. -/

/-- One wire payload as consumed by in_struct. -/
structure WirePayload where
  malformed : Bool
  critical : Bool
  next_np : Nat
deriving DecidableEq, Repr

/-- ikev2_decode_payloads (ikev2.c lines 765-935) as a walk over the
remaining wire payloads.  known is v2_payload_desc viewed as a
predicate, maxDigest is elemsof(md->digest), np the current
next-payload type, roof the digest count so far, and acc the summary
built so far.  Each iteration of the C loop consumes one payload with
in_struct; an empty stream makes in_struct fail exactly like a
malformed payload. -/
def ikev2_decode_payloads (known : Nat → Bool) (maxDigest : Nat) :
    List WirePayload → Nat → Nat → payload_summary → payload_summary
  | _, 0, _, acc => acc
  | stream, np, roof, acc =>
    if maxDigest ≤ roof then { acc with n := v2N_INVALID_SYNTAX }
    else
      match stream with
      | [] => { acc with n := v2N_INVALID_SYNTAX }
      | w :: rest =>
        if known np = false then
          if w.malformed then { acc with n := v2N_INVALID_SYNTAX }
          else if w.critical then
            { acc with n := v2N_UNSUPPORTED_CRITICAL_PAYLOAD, data := [np] }
          else ikev2_decode_payloads known maxDigest rest w.next_np roof acc
        else if LELEM_ROOF ≤ np then { acc with n := v2N_INVALID_SYNTAX }
        else
          let acc1 : payload_summary :=
            { acc with repeated := acc.repeated ||| (acc.present &&& LELEM np),
                       present := acc.present ||| LELEM np }
          if w.malformed then { acc1 with n := v2N_INVALID_SYNTAX }
          else
            let np1 := if np = v2SK ∨ np = v2SKF then v2NONE else w.next_np
            ikev2_decode_payloads known maxDigest rest np1 (roof + 1) acc1

/-- Claim C8.  At any point of the walk with current payload type np ≠
NONE and room in the digest: an unknown type with the critical bit set
halts the walk with UNSUPPORTED_CRITICAL_PAYLOAD, returning the
unknown type as the single data byte of the summary; an unknown type
without the critical bit (and a parseable generic header) never aborts
the walk - it is skipped and decoding continues from its generic
next-payload field; and a malformed payload halts the walk with
INVALID_SYNTAX, whether the type is known (below the bitset roof) or
unknown. -/
theorem ikev2_decode_payloads_edge_cases
    (known : Nat → Bool) (maxDigest np roof : Nat)
    (w : WirePayload) (rest : List WirePayload) (acc : payload_summary)
    (hnp : np ≠ v2NONE) (hroom : roof < maxDigest) :
    (known np = false → w.malformed = false → w.critical = true →
      ikev2_decode_payloads known maxDigest (w :: rest) np roof acc =
        { acc with n := v2N_UNSUPPORTED_CRITICAL_PAYLOAD, data := [np] }) ∧
    (known np = false → w.malformed = false → w.critical = false →
      ikev2_decode_payloads known maxDigest (w :: rest) np roof acc =
        ikev2_decode_payloads known maxDigest rest w.next_np roof acc) ∧
    (w.malformed = true → (known np = false ∨ np < LELEM_ROOF) →
      (ikev2_decode_payloads known maxDigest (w :: rest) np roof acc).n =
        v2N_INVALID_SYNTAX) := by
  have hnp0 : np ≠ 0 := by simpa [v2NONE] using hnp
  rcases np with _ | np0
  · exact absurd rfl hnp0
  refine ⟨?_, ?_, ?_⟩
  · intro hk hm hc
    simp [ikev2_decode_payloads, Nat.not_le.mpr hroom, hk, hm, hc]
  · intro hk hm hc
    simp [ikev2_decode_payloads, Nat.not_le.mpr hroom, hk, hm, hc]
  · intro hm hcase
    rcases hcase with hk | hlt
    · simp [ikev2_decode_payloads, Nat.not_le.mpr hroom, hk, hm]
    · rcases hk : known (np0 + 1) with _ | _
      · simp [ikev2_decode_payloads, Nat.not_le.mpr hroom, hk, hm]
      · simp [ikev2_decode_payloads, Nat.not_le.mpr hroom, hk, hm,
          Nat.not_le.mpr hlt]

/-- Witness for C8: an unknown critical payload of type 50 halts the
walk and is reported as the single data byte. -/
theorem ikev2_decode_payloads_edge_cases_witness :
    ikev2_decode_payloads (fun _ => false) 20 [⟨false, true, 0⟩] 50 0
        ⟨0, 0, v2N_NOTHING_WRONG, []⟩ =
      { present := 0, repeated := 0,
        n := v2N_UNSUPPORTED_CRITICAL_PAYLOAD, data := [50] } :=
  (ikev2_decode_payloads_edge_cases (fun _ => false) 20 50 0
      ⟨false, true, 0⟩ [] ⟨0, 0, v2N_NOTHING_WRONG, []⟩
      (by decide) (by decide)).1 rfl rfl rfl

/-! ## IKE SA rekey emancipation (ikev2.c lines 2713-2766) -/

/-- SOS_NOBODY, the null state serial number. -/
def SOS_NOBODY : Nat := 0

/-- The struct state fields read and written by the emancipation
path.  SPIs are embedded as pairs (initiator, responder) of their
numeric value. -/
structure Sa where
  st_serialno : Nat
  st_clonedfrom : Nat
  counters : Counters
  st_ike_spis : Nat × Nat
  st_ike_rekey_spis : Nat × Nat
  st_state : state_kind
deriving DecidableEq, Repr

/-- Modelled from the spec: v2_migrate_children (declared in ikev2.h,
body outside src/): all existing CHILD SAs of the old IKE SA are
migrated to the new one, i.e. every state cloned from the old SA is
re-parented onto the new SA's serial number. -/
def v2_migrate_children (src dst : Sa) (states : List Sa) : List Sa :=
  states.map (fun c =>
    if c.st_clonedfrom = src.st_serialno then
      { c with st_clonedfrom := dst.st_serialno }
    else c)

/-- Modelled from the spec: ikev2_ike_sa_established (body outside
src/), called by ikev2_child_emancipate with svm->next_state; the new
IKE SA's state becomes the transition's next state. -/
def ikev2_ike_sa_established (sa : Sa) (next_state : state_kind) : Sa :=
  { sa with st_state := next_state }

/-- ikev2_child_emancipate (ikev2.c lines 2713-2736).  md_st is the
CHILD SA being promoted (md->st), parent the IKE SA it was cloned
from, others the other states of the state table, next_state the
selected transition's next state.  rehash_state_cookies_in_db only
re-indexes the table and is the identity on the fields embedded
here. -/
def ikev2_child_emancipate (md_st parent : Sa) (others : List Sa)
    (next_state : state_kind) : Sa × List Sa :=
  let to1 : Sa :=
    { md_st with
      st_clonedfrom := SOS_NOBODY,
      counters := { md_st.counters with
                    lastack := v2_INVALID_MSGID,
                    lastrecv := v2_INVALID_MSGID,
                    nextuse := v2_FIRST_MSGID } }
  let to2 : Sa := { to1 with st_ike_spis := to1.st_ike_rekey_spis }
  let others2 := v2_migrate_children parent to2 others
  (ikev2_ike_sa_established to2 next_state, others2)

/-- The branch of success_v2_state_transition that dispatches on the
from state (ikev2.c lines 2748-2766): out of STATE_V2_REKEY_IKE_R or
STATE_V2_REKEY_IKE_I the Message-ID counters of the (old) IKE SA are
updated and the CHILD SA is emancipated; otherwise the state changes
to the transition's next state and the counters are updated.  Returns
(md->st after the branch, the old IKE SA, the other states). -/
def success_v2_state_transition_states (from_state : state_kind)
    (md_st parent : Sa) (others : List Sa) (upd : UpdIn)
    (next_state : state_kind) : Sa × Sa × List Sa :=
  if from_state = state_kind.STATE_V2_REKEY_IKE_R ∨
     from_state = state_kind.STATE_V2_REKEY_IKE_I then
    let parent1 : Sa :=
      { parent with counters := v2_msgid_update_counters parent.counters upd }
    let em := ikev2_child_emancipate md_st parent1 others next_state
    (em.1, parent1, em.2)
  else
    let md1 : Sa := { md_st with st_state := next_state }
    let parent1 : Sa :=
      { parent with counters := v2_msgid_update_counters parent.counters upd }
    (md1, parent1, others)

/-- Claim C9.  On an Ok completion out of STATE_V2_REKEY_IKE_I or
STATE_V2_REKEY_IKE_R, the promoted SA adopts the rekey SPI pair as its
identity, is no longer a clone, has its Message-ID counters reset to
lastack = invalid, lastrecv = invalid, nextuse = 0, and every CHILD SA
of the old IKE SA is migrated to it (all other states unchanged). -/
theorem success_v2_state_transition_emancipates
    (from_state : state_kind) (md_st parent : Sa) (others : List Sa)
    (upd : UpdIn) (next_state : state_kind)
    (h : from_state = state_kind.STATE_V2_REKEY_IKE_R ∨
         from_state = state_kind.STATE_V2_REKEY_IKE_I) :
    (success_v2_state_transition_states from_state md_st parent others upd
        next_state).1.st_ike_spis = md_st.st_ike_rekey_spis ∧
    (success_v2_state_transition_states from_state md_st parent others upd
        next_state).1.st_clonedfrom = SOS_NOBODY ∧
    (success_v2_state_transition_states from_state md_st parent others upd
        next_state).1.counters.lastack = v2_INVALID_MSGID ∧
    (success_v2_state_transition_states from_state md_st parent others upd
        next_state).1.counters.lastrecv = v2_INVALID_MSGID ∧
    (success_v2_state_transition_states from_state md_st parent others upd
        next_state).1.counters.nextuse = 0 ∧
    (success_v2_state_transition_states from_state md_st parent others upd
        next_state).1.st_serialno = md_st.st_serialno ∧
    (success_v2_state_transition_states from_state md_st parent others upd
        next_state).2.2 = others.map (fun c =>
          if c.st_clonedfrom = parent.st_serialno then
            { c with st_clonedfrom := md_st.st_serialno }
          else c) := by
  simp [success_v2_state_transition_states, if_pos h,
    ikev2_child_emancipate, ikev2_ike_sa_established, v2_migrate_children,
    v2_FIRST_MSGID]

/-- Witness for C9 at a concrete input: a rekey-responder completion
promotes a CHILD SA with serial 7 cloned from IKE SA 3; the one
existing CHILD SA (serial 5) of the old IKE SA is migrated to 7. -/
theorem success_v2_state_transition_emancipates_witness :
    (success_v2_state_transition_states state_kind.STATE_V2_REKEY_IKE_R
        ⟨7, 3, ⟨0, 1, 0, 0⟩, (11, 12), (21, 22), state_kind.STATE_V2_REKEY_IKE_R⟩
        ⟨3, 0, ⟨0, 1, 0, 0⟩, (11, 12), (0, 0), state_kind.STATE_PARENT_R2⟩
        [⟨5, 3, ⟨0, 1, 0, 0⟩, (11, 12), (0, 0), state_kind.STATE_V2_IPSEC_R⟩]
        ⟨false, 2, state_kind.STATE_V2_REKEY_IKE_R⟩
        state_kind.STATE_PARENT_R2).1.st_ike_spis = (21, 22) :=
  (success_v2_state_transition_emancipates state_kind.STATE_V2_REKEY_IKE_R
      ⟨7, 3, ⟨0, 1, 0, 0⟩, (11, 12), (21, 22), state_kind.STATE_V2_REKEY_IKE_R⟩
      ⟨3, 0, ⟨0, 1, 0, 0⟩, (11, 12), (0, 0), state_kind.STATE_PARENT_R2⟩
      [⟨5, 3, ⟨0, 1, 0, 0⟩, (11, 12), (0, 0), state_kind.STATE_V2_IPSEC_R⟩]
      ⟨false, 2, state_kind.STATE_V2_REKEY_IKE_R⟩
      state_kind.STATE_PARENT_R2 (Or.inl rfl)).1

/-! ## IKE_SA_INIT response dispatch (ikev2.c lines 1530-1599) -/

/-- The header fields the IKE_SA_INIT response branch reads. -/
structure InitRespHdr where
  msgid : Nat
  /-- ISAKMP_FLAGS_v2_IKE_I set by the sender. -/
  ike_i : Bool
  responder_spi : Nat
deriving DecidableEq, Repr

/-- The message digest at this point of ikev2_process_packet: header,
the still-undecoded payload bytes, and the parsed flag of
md->message_payloads (false on entry, decoding happens only later in
ikev2_process_state_packet). -/
structure InitRespMd where
  hdr : InitRespHdr
  body : List WirePayload
  payloads_parsed : Bool
deriving DecidableEq, Repr

/-- The SA fields this branch reads and writes. -/
structure InitRespSa where
  st_msgid_lastack : Nat
  responder_spi : Nat
deriving DecidableEq, Repr

/-- Modelled from the spec: rehash_state (body outside src/) re-keys
the SA in the state table under the responder SPI taken from the
message header; embedded as updating the SA's responder-SPI key. -/
def rehash_state (sa : InitRespSa) (spi : Nat) : InitRespSa :=
  { sa with responder_spi := spi }

/-- Outcome of the IKE_SA_INIT MESSAGE_RESPONSE branch: either the
packet is dropped at one of the four early returns, or processing
continues towards ikev2_process_state_packet with the rehashed SA and
the message digest untouched. -/
inductive init_resp_action where
  | drop
  | continueProcessing (sa : InitRespSa) (md : InitRespMd)
deriving DecidableEq, Repr

/-- The IKE_SA_INIT MESSAGE_RESPONSE branch of ikev2_process_packet
(lines 1423-1426 and 1530-1599): drop on a non-zero Message ID, on a
conflicting IKE_I flag, when no SA is found by initiator SPI, or when
st_msgid_lastack is already valid; otherwise rehash the SA under the
header's responder SPI and continue.  found is the result of
find_v2_ike_sa_by_initiator_spi. -/
def ikev2_process_sa_init_response (md : InitRespMd)
    (found : Option InitRespSa) : init_resp_action :=
  if md.hdr.msgid ≠ 0 then init_resp_action.drop
  else if md.hdr.ike_i then init_resp_action.drop
  else
    match found with
    | none => init_resp_action.drop
    | some st =>
      if st.st_msgid_lastack ≠ v2_INVALID_MSGID then init_resp_action.drop
      else
        init_resp_action.continueProcessing
          (rehash_state st md.hdr.responder_spi) md

/-- Claim C10.  For every IKE_SA_INIT response that finds an SA by
initiator SPI with st_msgid_lastack still invalid, the branch rehashes
the SA under the header's responder SPI and hands it on with the
payloads still unparsed - for every payload body whatsoever,
including bodies that will later fail decoding or verification. -/
theorem ikev2_process_sa_init_response_rehashes_before_decode
    (md : InitRespMd) (st : InitRespSa)
    (hmsgid : md.hdr.msgid = 0) (hflag : md.hdr.ike_i = false)
    (hack : st.st_msgid_lastack = v2_INVALID_MSGID)
    (hparsed : md.payloads_parsed = false) :
    ikev2_process_sa_init_response md (some st) =
      init_resp_action.continueProcessing
        { st with responder_spi := md.hdr.responder_spi } md ∧
    md.payloads_parsed = false := by
  constructor
  · simp [ikev2_process_sa_init_response, hmsgid, hflag, hack, rehash_state]
  · exact hparsed

/-- Witness for C10: a response whose single body payload is malformed
(it would fail ikev2_decode_payloads) still gets the SA rehashed to
responder SPI 99 before any decoding. -/
theorem ikev2_process_sa_init_response_rehashes_before_decode_witness :
    ikev2_process_sa_init_response
        ⟨⟨0, false, 99⟩, [⟨true, false, 0⟩], false⟩ (some ⟨v2_INVALID_MSGID, 0⟩) =
      init_resp_action.continueProcessing ⟨v2_INVALID_MSGID, 99⟩
        ⟨⟨0, false, 99⟩, [⟨true, false, 0⟩], false⟩ :=
  (ikev2_process_sa_init_response_rehashes_before_decode
      ⟨⟨0, false, 99⟩, [⟨true, false, 0⟩], false⟩ ⟨v2_INVALID_MSGID, 0⟩
      rfl rfl rfl rfl).1

end IKEv2
